import Mathlib

/-!
Shallow embedding of the OPT3001 ambient-light-sensor driver (`opt3001.py`)
and proofs about it.

Modelling conventions:
* Python's arbitrary-precision non-negative integers and its bitwise
  operators are embedded as `Nat` with `&&&`, `|||`, `<<<`, `>>>`.
* Python floats are embedded as exact rationals (`ℚ`); `int()` truncation
  is `pyInt` below.
* The I2C bus together with the single attached device is embedded as an
  explicit state (`Device`): a register file, the device's current register
  pointer, per-register failure flags for bus transactions (an I2C NACK
  surfaces as a Python `OSError`, modelled as `DriverError.io`), and the
  hardware-owned conversion-ready flag as a function of time.
* Wall-clock time (`time.monotonic` / `time.sleep`) is passed explicitly as
  a rational; bus transactions take zero time and only `time.sleep`
  advances the clock.
-/

namespace OPT3001

/-! ### Module-level constants (leading underscores of the source dropped) -/

def REG_RESULT : Nat := 0x00
def REG_CONFIG : Nat := 0x01
def REG_LOW_LIMIT : Nat := 0x02
def REG_HIGH_LIMIT : Nat := 0x03
def REG_MANUFACTURER_ID : Nat := 0x7E
def REG_DEVICE_ID : Nat := 0x7F

def CONFIG_RN : Nat := 0xF000
def CONFIG_CT : Nat := 0x0800
def CONFIG_M : Nat := 0x0600
def CONFIG_OVF : Nat := 0x0100
def CONFIG_CRF : Nat := 0x0080

def MODE_SHUTDOWN : Nat := 0x00
def MODE_SINGLE_SHOT : Nat := 0x01
def MODE_CONTINUOUS : Nat := 0x02

def CONVERSION_100MS : Nat := 0
def CONVERSION_800MS : Nat := 1

def MANUFACTURER_ID : Nat := 0x5449
def DEVICE_ID : Nat := 0x3001

/-! ### Numeric conversion layer -/

/-- Python `int()` applied to a rational number: truncation toward zero. -/
def pyInt (q : ℚ) : Int := if 0 ≤ q then ⌊q⌋ else ⌈q⌉

/-- The decoding formula `lux = 0.01 * (2 ** exponent) * mantissa` used by
`read_lux` (source line 168); the spec calls it `decode_lux`. -/
def decode_lux (exponent : Nat) (mantissa : Int) : ℚ :=
  1 / 100 * 2 ^ exponent * mantissa

/-- The candidate mantissa `int(lux / (0.01 * (2 ** exp)))` computed by each
iteration of the loop in `_lux_to_raw`. -/
def raw_mantissa (lux : ℚ) (exp : Nat) : Int := pyInt (lux / (1 / 100 * 2 ^ exp))

/-- The `for exp in range(12)` loop body of `_lux_to_raw`: `fuel` counts the
remaining loop iterations (the loop maintains `exp + fuel = 12`); when the
loop is exhausted the function falls through to `return 11, 4095`. -/
def lux_to_raw_go (lux : ℚ) : Nat → Nat → Nat × Int
  | _, 0 => (11, 4095)
  | exp, fuel + 1 =>
    let mantissa := raw_mantissa lux exp
    if mantissa ≤ 4095 then (exp, mantissa) else lux_to_raw_go lux (exp + 1) fuel

/-- `_lux_to_raw`: convert a lux value to an `(exponent, mantissa)` pair. -/
def lux_to_raw (lux : ℚ) : Nat × Int := lux_to_raw_go lux 0 12

/-! ### Bus / device model -/

/-- Errors the driver can raise: `io` models the `OSError` of a failed bus
transaction, `timeout` the `RuntimeError` raised by `single_shot` when the
conversion does not complete, `setup` the `RuntimeError` raised by the
constructor on identity-verification failure. -/
inductive DriverError where
  | io : DriverError
  | timeout : DriverError
  | setup : DriverError
  deriving DecidableEq, Repr

/-- State of the I2C bus with the single attached OPT3001-style device:
`regs` is the device's register file, `ptr` its current register pointer
(set by every addressed transaction), `readFails`/`writeFails` say whether a
bus read/write transaction addressing a given register NACKs (raising
`OSError`), and `crfAt` is the hardware-owned conversion-ready flag as a
function of time (reported in bit 7 of the configuration register). -/
structure Device where
  regs : Nat → Nat
  ptr : Nat
  readFails : Nat → Bool
  writeFails : Nat → Bool
  crfAt : ℚ → Bool

/-- The 16-bit word the device supplies when register `r` is read at time
`t`: bit 7 of the configuration register is the hardware-owned
conversion-ready flag, so a configuration read reports `crfAt t` there. -/
def regRead (d : Device) (t : ℚ) (r : Nat) : Nat :=
  if r = REG_CONFIG then
    (d.regs r &&& 0xFF7F) ||| (if d.crfAt t then CONFIG_CRF else 0)
  else d.regs r

/-- `_read_register`: a combined write-then-read transaction (write the
register-address byte, which sets the device's register pointer, then read
two bytes MSB-first into the transfer buffer), followed by the big-endian
reassembly `(buffer[0] << 8) | buffer[1]`. -/
def read_register (d : Device) (t : ℚ) (register : Nat) :
    Except DriverError (Device × Nat) :=
  if d.readFails register then .error .io
  else
    let d' : Device := { d with ptr := register }
    let b0 := (regRead d' t register >>> 8) &&& 0xFF
    let b1 := regRead d' t register &&& 0xFF
    .ok (d', (b0 <<< 8) ||| b1)

/-- `_write_register`, faithful to the source: serialize `value` MSB-first
into the 2-byte transfer buffer; then issue
`writeto_then_readfrom(addr, bytes([register]), buffer, out_end=0, in_start=0)`
— because `out_end=0` the out-bytes are empty (the register pointer is NOT
set) and two bytes are read from the current register pointer INTO THE SAME
buffer, overwriting the serialized value; finally issue
`writeto(addr, bytes([register, buffer[0], buffer[1]]))`, which selects
`register` and stores the (clobbered) buffer bytes there. -/
def write_register (d : Device) (t : ℚ) (register value : Nat) :
    Except DriverError Device :=
  let buf0 := (value >>> 8) &&& 0xFF
  let buf1 := value &&& 0xFF
  if d.readFails d.ptr then .error .io
  else
    let buf0 := (regRead d t d.ptr >>> 8) &&& 0xFF
    let buf1 := regRead d t d.ptr &&& 0xFF
    if d.writeFails register then .error .io
    else .ok { d with
      ptr := register,
      regs := fun r => if r = register then (buf0 <<< 8) ||| buf1 else d.regs r }

/-- `check_device_id`: read the manufacturer-ID and device-ID registers and
compare them with the expected constants; the bare `except Exception:
return False` turns any bus failure into `false`. -/
def check_device_id (d : Device) (t : ℚ) : Device × Bool :=
  match read_register d t REG_MANUFACTURER_ID with
  | .error _ => (d, false)
  | .ok (d1, manufacturer_id) =>
    match read_register d1 t REG_DEVICE_ID with
    | .error _ => (d1, false)
    | .ok (d2, device_id) =>
      (d2, manufacturer_id == MANUFACTURER_ID && device_id == DEVICE_ID)

/-- The 16-bit configuration word composed by `configure` (source lines
132-141): auto-range nibble `0xC000` when `range_auto`, the conversion-time
bit when `conversion_time == CONVERSION_800MS`, and the mode shifted into
bits 10-9. -/
def config_word (mode conversion_time : Nat) (range_auto : Bool) : Nat :=
  let config : Nat := if range_auto then 0xC000 else 0x0000
  let config := if conversion_time = CONVERSION_800MS then config ||| CONFIG_CT else config
  config ||| (mode <<< 9)

/-- `configure`: compose the configuration word and write it to the
configuration register. -/
def configure (d : Device) (t : ℚ) (mode conversion_time : Nat) (range_auto : Bool) :
    Except DriverError Device :=
  write_register d t REG_CONFIG (config_word mode conversion_time range_auto)

/-- `read_raw`: read the result register and split it into the top-4-bit
exponent and the bottom-12-bit mantissa. -/
def read_raw (d : Device) (t : ℚ) : Except DriverError (Device × (Nat × Nat)) :=
  match read_register d t REG_RESULT with
  | .error e => .error e
  | .ok (d1, raw) => .ok (d1, ((raw >>> 12) &&& 0x0F, raw &&& 0x0FFF))

/-- `read_lux`: decode `read_raw` by `lux = 0.01 * (2 ** exponent) * mantissa`. -/
def read_lux (d : Device) (t : ℚ) : Except DriverError (Device × ℚ) :=
  match read_raw d t with
  | .error e => .error e
  | .ok (d1, (exponent, mantissa)) => .ok (d1, decode_lux exponent (mantissa : ℤ))

/-- `is_conversion_ready`: read the configuration register and test the
conversion-ready flag. -/
def is_conversion_ready (d : Device) (t : ℚ) : Except DriverError (Device × Bool) :=
  match read_register d t REG_CONFIG with
  | .error e => .error e
  | .ok (d1, config) => .ok (d1, config &&& CONFIG_CRF != 0)

/-- The polling loop of `single_shot`: `start` is the `time.monotonic()`
snapshot taken right after the configuration write, `n` the number of
completed `time.sleep(0.01)` calls, so the current time is `start + n / 100`
(bus transactions are instantaneous in this model). The loop terminates
because the 1-second elapsed-time guard fires once `n` exceeds 100. -/
def waitConversion (d : Device) (start : ℚ) (n : Nat) :
    Except DriverError (Device × Nat) :=
  match is_conversion_ready d (start + n / 100) with
  | .error e => .error e
  | .ok (d1, ready) =>
    if ready then .ok (d1, n)
    else if h : (start + n / 100) - start > 1 then .error .timeout
    else waitConversion d1 start (n + 1)
termination_by 102 - n
decreasing_by
  simp only [not_lt, add_sub_cancel_left, div_le_one (by norm_num : (0:ℚ) < 100)] at h
  have hn : n ≤ 100 := by exact_mod_cast h
  omega

/-- The tail of `single_shot` after the configuration write: poll until the
conversion-ready flag is set (or time out), then read the lux value. -/
def single_shot_rest (t0 : ℚ) (d1 : Device) : Except DriverError (Device × ℚ) :=
  match waitConversion d1 t0 0 with
  | .error e => .error e
  | .ok (d2, n) => read_lux d2 (t0 + n / 100)

/-- `single_shot`: configure for single-shot mode (with the default 800 ms
conversion time and automatic range), then wait for the conversion-ready
flag with a fixed 1-second timeout and a 10 ms sleep between polls, then
read and return the lux value. -/
def single_shot (d : Device) (t0 : ℚ) : Except DriverError (Device × ℚ) :=
  match configure d t0 MODE_SINGLE_SHOT CONVERSION_800MS true with
  | .error e => .error e
  | .ok d1 => single_shot_rest t0 d1

/-- `OPT3001.__init__` after the bus and address are bound: verify the
device identity (raising a setup `RuntimeError` on mismatch), then write the
default continuous/800 ms configuration; the trailing `time.sleep(1.0)` has
no observable effect in this model. -/
def init (d : Device) (t : ℚ) : Except DriverError Device :=
  match check_device_id d t with
  | (_, false) => .error .setup
  | (d1, true) => configure d1 t MODE_CONTINUOUS CONVERSION_800MS true

/-- `deinit`: put the sensor into shutdown mode via the standard configure
path. -/
def deinit (d : Device) (t : ℚ) : Except DriverError Device :=
  configure d t MODE_SHUTDOWN CONVERSION_800MS true

/-- All-zero loopback device: registers zeroed, pointer at register 0, no
bus failures, conversion-ready flag never set. -/
def devZero : Device :=
  { regs := fun _ => 0, ptr := 0,
    readFails := fun _ => false, writeFails := fun _ => false,
    crfAt := fun _ => false }

/-- Device whose result register holds 0x1234, for the C4 witness. -/
def devC4 : Device :=
  { regs := fun r => if r = REG_RESULT then 0x1234 else 0, ptr := 0,
    readFails := fun _ => false, writeFails := fun _ => false,
    crfAt := fun _ => false }

/-- Device presenting the correct manufacturer and device IDs, for the C6
and C8 witnesses. -/
def devID : Device :=
  { regs := fun r => if r = REG_MANUFACTURER_ID then MANUFACTURER_ID
      else if r = REG_DEVICE_ID then DEVICE_ID else 0,
    ptr := 0,
    readFails := fun _ => false, writeFails := fun _ => false,
    crfAt := fun _ => false }

/-! ### Sanity checks of the encoder on concrete inputs -/

example : lux_to_raw 1 = (0, 100) := by
  norm_num [lux_to_raw, lux_to_raw_go, raw_mantissa, pyInt]
example : lux_to_raw 1000 = (5, 3125) := by
  norm_num [lux_to_raw, lux_to_raw_go, raw_mantissa, pyInt]
example : lux_to_raw 50 = (1, 2500) := by
  norm_num [lux_to_raw, lux_to_raw_go, raw_mantissa, pyInt]
example : lux_to_raw 100000 = (11, 4095) := by
  norm_num [lux_to_raw, lux_to_raw_go, raw_mantissa, pyInt]
/-! ### Facts about the numeric layer -/

lemma pyInt_eq_floor {q : ℚ} (h : 0 ≤ q) : pyInt q = ⌊q⌋ := by
  simp [pyInt, h]

lemma pyInt_intCast (z : ℤ) : pyInt (z : ℚ) = z := by
  unfold pyInt
  split <;> simp

lemma step_pos (exp : Nat) : (0 : ℚ) < 1 / 100 * 2 ^ exp := by positivity

lemma raw_mantissa_eq_floor {lux : ℚ} (h : 0 ≤ lux) (exp : Nat) :
    raw_mantissa lux exp = ⌊lux / (1 / 100 * 2 ^ exp)⌋ := by
  unfold raw_mantissa
  exact pyInt_eq_floor (div_nonneg h (step_pos exp).le)

lemma raw_mantissa_nonneg {lux : ℚ} (h : 0 ≤ lux) (exp : Nat) :
    0 ≤ raw_mantissa lux exp := by
  rw [raw_mantissa_eq_floor h]
  exact Int.floor_nonneg.mpr (div_nonneg h (step_pos exp).le)

lemma lux_to_raw_go_eq_of_first (lux : ℚ) :
    ∀ fuel exp e : Nat, exp + fuel = 12 → exp ≤ e → e < 12 →
      raw_mantissa lux e ≤ 4095 →
      (∀ j, exp ≤ j → j < e → 4095 < raw_mantissa lux j) →
      lux_to_raw_go lux exp fuel = (e, raw_mantissa lux e)
  | 0, exp, e, hinv, hle, he, _, _ => by omega
  | fuel + 1, exp, e, hinv, hle, he, hc, hmin => by
    rcases Nat.eq_or_lt_of_le hle with rfl | hlt
    · simp [lux_to_raw_go, hc]
    · have hfail : ¬ raw_mantissa lux exp ≤ 4095 :=
        not_le.mpr (hmin exp le_rfl hlt)
      simp only [lux_to_raw_go, hfail, if_false]
      exact lux_to_raw_go_eq_of_first lux fuel (exp + 1) e (by omega) hlt he hc
        fun j hj hj2 => hmin j (by omega) hj2

lemma lux_to_raw_go_eq_of_none (lux : ℚ) :
    ∀ fuel exp : Nat, exp + fuel = 12 →
      (∀ j, exp ≤ j → j < 12 → 4095 < raw_mantissa lux j) →
      lux_to_raw_go lux exp fuel = (11, 4095)
  | 0, exp, _, _ => by simp [lux_to_raw_go]
  | fuel + 1, exp, hinv, hall => by
    have hfail : ¬ raw_mantissa lux exp ≤ 4095 :=
      not_le.mpr (hall exp le_rfl (by omega))
    simp only [lux_to_raw_go, hfail, if_false]
    exact lux_to_raw_go_eq_of_none lux fuel (exp + 1) (by omega)
      fun j hj hj2 => hall j (by omega) hj2

/-- If `e` is the first exponent whose candidate mantissa fits in 12 bits, the
encoder returns exactly that pair. -/
lemma lux_to_raw_eq_first (lux : ℚ) (e : Nat) (he : e < 12)
    (hc : raw_mantissa lux e ≤ 4095)
    (hmin : ∀ j, j < e → 4095 < raw_mantissa lux j) :
    lux_to_raw lux = (e, raw_mantissa lux e) :=
  lux_to_raw_go_eq_of_first lux 12 0 e rfl (Nat.zero_le _) he hc
    fun j _ hj => hmin j hj

lemma lux_to_raw_go_bounds (lux : ℚ) (h0 : 0 ≤ lux) :
    ∀ fuel exp : Nat, exp + fuel = 12 →
      (lux_to_raw_go lux exp fuel).1 ≤ 11 ∧
      0 ≤ (lux_to_raw_go lux exp fuel).2 ∧ (lux_to_raw_go lux exp fuel).2 ≤ 4095
  | 0, exp, _ => by simp [lux_to_raw_go]
  | fuel + 1, exp, hinv => by
    by_cases hc : raw_mantissa lux exp ≤ 4095
    · simpa [lux_to_raw_go, hc] using ⟨by omega, raw_mantissa_nonneg h0 exp⟩
    · simp only [lux_to_raw_go, hc, if_false]
      exact lux_to_raw_go_bounds lux h0 fuel (exp + 1) (by omega)

/-- Claim C2: for a non-negative lux value that is at all representable (some
exponent in `[0, 11]` gives a 12-bit mantissa, which by monotonicity is
equivalent to the floored quotient at exponent 11 fitting), `_lux_to_raw`
returns the pair `(e, m)` where `e` is the smallest exponent in `[0, 11]`
such that `⌊lux / (0.01 * 2 ^ e)⌋ ≤ 4095` and `m` is that floored quotient;
in particular `lux = 1` yields `(0, 100)` and `lux = 1000` yields
`(5, 3125)`. -/
theorem lux_to_raw_minimal_exponent (lux : ℚ) (h0 : 0 ≤ lux)
    (hrep : ⌊lux / (1 / 100 * 2 ^ 11)⌋ ≤ 4095) :
    (∃ e, e ≤ 11 ∧
      lux_to_raw lux = (e, ⌊lux / (1 / 100 * 2 ^ e)⌋) ∧
      ⌊lux / (1 / 100 * 2 ^ e)⌋ ≤ 4095 ∧
      ∀ j, j < e → 4095 < ⌊lux / (1 / 100 * 2 ^ j)⌋) ∧
    lux_to_raw 1 = (0, 100) ∧ lux_to_raw 1000 = (5, 3125) := by
  have hmf : ∀ j : Nat, raw_mantissa lux j = ⌊lux / (1 / 100 * 2 ^ j)⌋ :=
    raw_mantissa_eq_floor h0
  have hex : ∃ j, raw_mantissa lux j ≤ 4095 := ⟨11, by rw [hmf]; exact hrep⟩
  have he11 : Nat.find hex ≤ 11 := Nat.find_min' hex (by rw [hmf]; exact hrep)
  have hce := Nat.find_spec hex
  have hmin : ∀ j, j < Nat.find hex → 4095 < raw_mantissa lux j :=
    fun j hj => not_le.mp (Nat.find_min hex hj)
  refine ⟨⟨Nat.find hex, he11, ?_, by rw [← hmf]; exact hce,
      fun j hj => by rw [← hmf]; exact hmin j hj⟩, ?_, ?_⟩
  · rw [← hmf]
    exact lux_to_raw_eq_first lux _ (by omega) hce hmin
  · norm_num [lux_to_raw, lux_to_raw_go, raw_mantissa, pyInt]
  · norm_num [lux_to_raw, lux_to_raw_go, raw_mantissa, pyInt]

/-- Witness for C2 at the concrete input `lux = 50` (encoded as `(1, 2500)`:
exponent 0 would need mantissa 5000, which does not fit). -/
theorem lux_to_raw_minimal_exponent_witness :
    ((0 : ℚ) ≤ 50 ∧ ⌊(50 : ℚ) / (1 / 100 * 2 ^ 11)⌋ ≤ 4095) ∧
    ((∃ e, e ≤ 11 ∧
      lux_to_raw 50 = (e, ⌊(50 : ℚ) / (1 / 100 * 2 ^ e)⌋) ∧
      ⌊(50 : ℚ) / (1 / 100 * 2 ^ e)⌋ ≤ 4095 ∧
      ∀ j, j < e → 4095 < ⌊(50 : ℚ) / (1 / 100 * 2 ^ j)⌋) ∧
    lux_to_raw 1 = (0, 100) ∧ lux_to_raw 1000 = (5, 3125)) :=
  ⟨⟨by norm_num, by norm_num⟩,
    lux_to_raw_minimal_exponent 50 (by norm_num) (by norm_num)⟩

/-- Claim C3: for every non-negative lux input, `_lux_to_raw` returns an
exponent in `[0, 11]` and a mantissa in `[0, 4095]`, and for inputs above the
representable maximum `2 ^ 11 * 4095 * 0.01` it returns exactly `(11, 4095)`
(saturation rather than failure). -/
theorem lux_to_raw_range_saturation (lux : ℚ) (h0 : 0 ≤ lux) :
    (lux_to_raw lux).1 ≤ 11 ∧
    0 ≤ (lux_to_raw lux).2 ∧ (lux_to_raw lux).2 ≤ 4095 ∧
    (2 ^ 11 * 4095 / 100 < lux → lux_to_raw lux = (11, 4095)) := by
  obtain ⟨h1, h2, h3⟩ := lux_to_raw_go_bounds lux h0 12 0 rfl
  refine ⟨h1, h2, h3, fun hbig => ?_⟩
  have hmf : ∀ j : Nat, raw_mantissa lux j = ⌊lux / (1 / 100 * 2 ^ j)⌋ :=
    raw_mantissa_eq_floor h0
  have hsmall : ∀ j, j < 11 → 4095 < raw_mantissa lux j := by
    intro j hj
    have h2j : (2 : ℚ) ^ j ≤ 2 ^ 10 :=
      pow_le_pow_right₀ (by norm_num) (by omega)
    have hq : (8190 : ℚ) ≤ lux / (1 / 100 * 2 ^ j) := by
      rw [le_div_iff₀ (step_pos j)]
      nlinarith
    have : (8190 : ℤ) ≤ raw_mantissa lux j := by
      rw [hmf]
      exact Int.le_floor.mpr (by exact_mod_cast hq)
    omega
  by_cases hc : raw_mantissa lux 11 ≤ 4095
  · have hq : (4095 : ℚ) ≤ lux / (1 / 100 * 2 ^ 11) := by
      rw [le_div_iff₀ (step_pos 11)]
      nlinarith
    have hge : (4095 : ℤ) ≤ raw_mantissa lux 11 := by
      rw [hmf]
      exact Int.le_floor.mpr (by exact_mod_cast hq)
    rw [lux_to_raw_eq_first lux 11 (by omega) hc hsmall]
    exact congrArg _ (le_antisymm hc hge)
  · exact lux_to_raw_go_eq_of_none lux 12 0 rfl fun j _ hj => by
      rcases Nat.lt_or_ge j 11 with h | h
      · exact hsmall j h
      · have : j = 11 := by omega
        subst this
        exact not_le.mp hc

/-- Witness for C3 at the concrete saturating input `lux = 100000`. -/
theorem lux_to_raw_range_saturation_witness :
    ((0 : ℚ) ≤ 100000 ∧ (2 ^ 11 * 4095 / 100 : ℚ) < 100000) ∧
    (lux_to_raw 100000).1 ≤ 11 ∧
    0 ≤ (lux_to_raw 100000).2 ∧ (lux_to_raw 100000).2 ≤ 4095 ∧
    lux_to_raw 100000 = (11, 4095) := by
  have h := lux_to_raw_range_saturation 100000 (by norm_num)
  exact ⟨⟨by norm_num, by norm_num⟩, h.1, h.2.1, h.2.2.1, h.2.2.2 (by norm_num)⟩

/-- Claim C9: a lux value exactly representable as `m0 * 0.01 * 2 ^ e0` with
`m0 ≤ 4095` and `e0 ≤ 11` is reproduced by decoding the pair the encoder
produces, within the resolution step `0.01 * 2 ^ e` of the exponent `e` the
encoder chose (in fact exactly). -/
theorem decode_encode_round_trip (e0 m0 : Nat) (he0 : e0 ≤ 11) (hm0 : m0 ≤ 4095) :
    |decode_lux e0 (m0 : ℤ) -
        decode_lux (lux_to_raw (decode_lux e0 (m0 : ℤ))).1
          (lux_to_raw (decode_lux e0 (m0 : ℤ))).2| ≤
      1 / 100 * 2 ^ (lux_to_raw (decode_lux e0 (m0 : ℤ))).1 := by
  set lux := decode_lux e0 (m0 : ℤ) with hlux
  clear_value lux
  simp only [decode_lux] at hlux
  push_cast at hlux
  have h0 : 0 ≤ lux := by
    rw [hlux]
    positivity
  have hq0 : lux / (1 / 100 * 2 ^ e0) = ((m0 : ℤ) : ℚ) := by
    rw [hlux]
    push_cast
    field_simp
  have hc0 : raw_mantissa lux e0 ≤ 4095 := by
    unfold raw_mantissa
    rw [hq0, pyInt_intCast]
    exact_mod_cast hm0
  have hex : ∃ j, raw_mantissa lux j ≤ 4095 := ⟨e0, hc0⟩
  have hee0 : Nat.find hex ≤ e0 := Nat.find_min' hex hc0
  have hce := Nat.find_spec hex
  have hmin : ∀ j, j < Nat.find hex → 4095 < raw_mantissa lux j :=
    fun j hj => not_le.mp (Nat.find_min hex hj)
  have h2 : (2 : ℚ) ^ (e0 - Nat.find hex) * 2 ^ Nat.find hex = 2 ^ e0 := by
    rw [← pow_add]
    congr 1
    omega
  have hqe : lux / (1 / 100 * 2 ^ Nat.find hex) =
      ((m0 * 2 ^ (e0 - Nat.find hex) : ℤ) : ℚ) := by
    rw [div_eq_iff (step_pos (Nat.find hex)).ne']
    push_cast
    linear_combination hlux - ((m0 : ℚ) / 100) * h2
  have hme : raw_mantissa lux (Nat.find hex) = m0 * 2 ^ (e0 - Nat.find hex) := by
    unfold raw_mantissa
    rw [hqe, pyInt_intCast]
  have hfirst : lux_to_raw lux = (Nat.find hex, raw_mantissa lux (Nat.find hex)) :=
    lux_to_raw_eq_first lux _ (by omega) hce hmin
  have hdec : decode_lux (Nat.find hex) (raw_mantissa lux (Nat.find hex)) = lux := by
    rw [hme]
    simp only [decode_lux]
    push_cast
    linear_combination ((m0 : ℚ) / 100) * h2 - hlux
  rw [hfirst]
  dsimp only
  rw [hdec, sub_self, abs_zero]
  positivity

/-- Witness for C9 at the concrete representable value `17 * 0.01 * 2 ^ 3`. -/
theorem decode_encode_round_trip_witness :
    (3 ≤ 11 ∧ 17 ≤ 4095) ∧
    |decode_lux 3 (17 : ℤ) -
        decode_lux (lux_to_raw (decode_lux 3 (17 : ℤ))).1
          (lux_to_raw (decode_lux 3 (17 : ℤ))).2| ≤
      1 / 100 * 2 ^ (lux_to_raw (decode_lux 3 (17 : ℤ))).1 :=
  ⟨⟨by norm_num, by norm_num⟩, decode_encode_round_trip 3 17 (by norm_num) (by norm_num)⟩

/-! ### Bit-level helper lemmas -/

lemma testBit_mask8 (i : Nat) : Nat.testBit 0xFF i = decide (i < 8) := by
  have h : (0xFF : ℕ) = 2 ^ 8 - 1 := by norm_num
  rw [h, Nat.testBit_two_pow_sub_one]

lemma assemble_bytes {v : Nat} (hv : v < 65536) :
    ((((v >>> 8) &&& 0xFF) <<< 8) ||| (v &&& 0xFF)) = v := by
  apply Nat.eq_of_testBit_eq
  intro i
  simp only [Nat.testBit_or, Nat.testBit_shiftLeft, Nat.testBit_and,
    Nat.testBit_shiftRight, testBit_mask8]
  rcases Nat.lt_or_ge i 8 with h8 | h8
  · simp [h8, Nat.not_le.mpr h8]
  · rcases Nat.lt_or_ge i 16 with h16 | h16
    · have hsub : 8 + (i - 8) = i := by omega
      have hlt : i - 8 < 8 := by omega
      simp [h8, hsub, hlt, Nat.not_lt.mpr h8]
    · have hv' : v < 2 ^ i :=
        lt_of_lt_of_le hv (le_trans (by norm_num) (Nat.pow_le_pow_right (by norm_num) h16))
      have hbit : v.testBit i = false := Nat.testBit_lt_two_pow hv'
      have hsub : 8 + (i - 8) = i := by omega
      have hge' : ¬ i - 8 < 8 := by omega
      have hge : ¬ i < 8 := by omega
      simp [hbit, hsub, hge', hge]

lemma regRead_ptr (d : Device) (p : Nat) (t : ℚ) (r : Nat) :
    regRead { d with ptr := p } t r = regRead d t r := rfl

lemma regRead_config_lt (d : Device) (t : ℚ) : regRead d t REG_CONFIG < 65536 := by
  unfold regRead
  rw [if_pos rfl]
  have h1 : d.regs REG_CONFIG &&& 0xFF7F < 2 ^ 16 :=
    lt_of_le_of_lt Nat.and_le_right (by norm_num)
  have h2 : (if d.crfAt t then CONFIG_CRF else 0) < 2 ^ 16 := by
    split <;> norm_num [CONFIG_CRF]
  exact Nat.or_lt_two_pow h1 h2

lemma regRead_lt {d : Device} (t : ℚ) {r : Nat} (h : d.regs r < 65536) :
    regRead d t r < 65536 := by
  by_cases hc : r = REG_CONFIG
  · subst hc
    exact regRead_config_lt d t
  · simpa [regRead, hc] using h

lemma regRead_not_config {d : Device} (t : ℚ) {r : Nat} (h : r ≠ REG_CONFIG) :
    regRead d t r = d.regs r := by
  simp [regRead, h]

/-- Successful register read: the device pointer moves to `register` and the
returned word is exactly the device-supplied 16-bit value. -/
lemma read_register_ok (d : Device) (t : ℚ) (register : Nat)
    (hf : d.readFails register = false) (hv : regRead d t register < 65536) :
    read_register d t register = .ok ({ d with ptr := register }, regRead d t register) := by
  unfold read_register
  simp only [hf, Bool.false_eq_true, if_false, regRead_ptr]
  rw [assemble_bytes hv]

lemma regRead_config_crf (d : Device) (t : ℚ) :
    regRead d t REG_CONFIG &&& CONFIG_CRF = if d.crfAt t then CONFIG_CRF else 0 := by
  unfold regRead
  rw [if_pos rfl, Nat.and_distrib_right, Nat.and_assoc]
  have h1 : (0xFF7F &&& CONFIG_CRF : ℕ) = 0 := by decide
  rw [h1, Nat.and_zero, Nat.zero_or]
  split <;> decide

lemma is_conversion_ready_ok (d : Device) (t : ℚ)
    (hf : d.readFails REG_CONFIG = false) :
    is_conversion_ready d t = .ok ({ d with ptr := REG_CONFIG }, d.crfAt t) := by
  unfold is_conversion_ready
  rw [read_register_ok d t REG_CONFIG hf (regRead_config_lt d t)]
  have : (regRead d t REG_CONFIG &&& CONFIG_CRF != 0) = d.crfAt t := by
    rw [regRead_config_crf]
    cases d.crfAt t <;> decide
  simp [this]

lemma and_mask12 (x : Nat) : x &&& 0x0FFF = x % 4096 := by
  have h : (0x0FFF : ℕ) = 2 ^ 12 - 1 := by norm_num
  rw [h, Nat.and_pow_two_sub_one_eq_mod]

lemma shift12_and_mask4 {x : Nat} (hx : x < 65536) :
    (x >>> 12) &&& 0x0F = x / 4096 := by
  have h1 : x >>> 12 = x / 4096 := by
    rw [Nat.shiftRight_eq_div_pow]
  have h2 : x / 4096 < 2 ^ 4 := by omega
  have h : (0x0F : ℕ) = 2 ^ 4 - 1 := by norm_num
  rw [h1, h, Nat.and_pow_two_sub_one_of_lt_two_pow h2]

/-- Successful register write, as the source performs it: the stored word is
assembled from the two probe-read bytes (the serialized `value` having been
overwritten in the buffer), and the device pointer moves to `register`. -/
lemma write_register_ok (d : Device) (t : ℚ) (register value : Nat)
    (hrf : d.readFails d.ptr = false) (hwf : d.writeFails register = false) :
    write_register d t register value = .ok { d with
      ptr := register,
      regs := fun r => if r = register then
          ((((regRead d t d.ptr >>> 8) &&& 0xFF) <<< 8) ||| (regRead d t d.ptr &&& 0xFF))
        else d.regs r } := by
  unfold write_register
  simp [hrf, hwf]

lemma write_register_ne_setup (d : Device) (t : ℚ) (register value : Nat) :
    write_register d t register value ≠ .error DriverError.setup := by
  unfold write_register
  split
  · simp
  · split
    · simp
    · simp

lemma read_raw_ok (d : Device) (t : ℚ) (hf : d.readFails REG_RESULT = false)
    (hv : d.regs REG_RESULT < 65536) :
    read_raw d t = .ok ({ d with ptr := REG_RESULT },
      (d.regs REG_RESULT / 4096, d.regs REG_RESULT % 4096)) := by
  have hr : regRead d t REG_RESULT = d.regs REG_RESULT :=
    regRead_not_config t (by decide)
  unfold read_raw
  rw [read_register_ok d t REG_RESULT hf (by rw [hr]; exact hv), hr]
  dsimp only
  rw [shift12_and_mask4 hv, and_mask12]

lemma read_lux_ok (d : Device) (t : ℚ) (hf : d.readFails REG_RESULT = false)
    (hv : d.regs REG_RESULT < 65536) :
    read_lux d t = .ok ({ d with ptr := REG_RESULT },
      decode_lux (d.regs REG_RESULT / 4096) ((d.regs REG_RESULT % 4096 : ℕ) : ℤ)) := by
  unfold read_lux
  rw [read_raw_ok d t hf hv]

/-! ### Claim theorems about the register I/O layer -/

/-- Claim C1 (evidence of a code bug): on the all-zero loopback device,
`_write_register(REG_LOW_LIMIT, 0x1234)` followed by
`_read_register(REG_LOW_LIMIT)` yields 0, not the written value 0x1234.
The probe `writeto_then_readfrom(..., out_end=0, in_start=0)` reads two
bytes from the device into the very transfer buffer that holds the
serialized value, so the subsequent write transaction stores the read-back
bytes instead of `value`, and two bus transactions are issued instead of
the single combined write the docstring and spec describe. -/
theorem write_read_register_clobbers :
    (write_register devZero 0 REG_LOW_LIMIT 0x1234).bind
        (fun d => (read_register d 0 REG_LOW_LIMIT).map Prod.snd) = .ok 0 ∧
    (0 : Nat) ≠ 0x1234 := by
  constructor
  · rfl
  · decide

/-- Claim C4: for a 16-bit result-register value, `read_raw` returns the top
4 bits as the exponent and the bottom 12 bits as the mantissa, and
`read_lux` returns exactly `0.01 * 2 ^ exponent * mantissa`. -/
theorem read_raw_read_lux_spec (d : Device) (t : ℚ)
    (hf : d.readFails REG_RESULT = false) (hv : d.regs REG_RESULT < 65536) :
    read_raw d t = .ok ({ d with ptr := REG_RESULT },
      (d.regs REG_RESULT / 4096, d.regs REG_RESULT % 4096)) ∧
    read_lux d t = .ok ({ d with ptr := REG_RESULT },
      1 / 100 * 2 ^ (d.regs REG_RESULT / 4096) * ((d.regs REG_RESULT % 4096 : ℕ) : ℚ)) := by
  refine ⟨read_raw_ok d t hf hv, ?_⟩
  rw [read_lux_ok d t hf hv]
  simp only [decode_lux, Int.cast_natCast]

/-- Witness for C4 on a concrete device whose result register holds 0x1234
(exponent 1, mantissa 0x234 = 564, lux `0.01 * 2 * 564 = 11.28`). -/
theorem read_raw_read_lux_spec_witness :
    (devC4.readFails REG_RESULT = false ∧ devC4.regs REG_RESULT < 65536) ∧
    read_raw devC4 0 = .ok ({ devC4 with ptr := REG_RESULT }, (1, 564)) ∧
    read_lux devC4 0 = .ok ({ devC4 with ptr := REG_RESULT },
      1 / 100 * 2 ^ (1 : ℕ) * (564 : ℚ)) := by
  have h := read_raw_read_lux_spec devC4 0 rfl (by norm_num [devC4, REG_RESULT])
  refine ⟨⟨rfl, by norm_num [devC4, REG_RESULT]⟩, ?_, ?_⟩
  · rw [h.1]
    norm_num [devC4, REG_RESULT]
  · rw [h.2]
    norm_num [devC4, REG_RESULT]

/-- Claim C6: `check_device_id` returns `true` exactly when both identity
reads succeed and return the constants 0x5449 and 0x3001; a bus failure on
either read (or any other combination of values) yields `false`, and being
a total `Bool`-valued function it never propagates an exception. -/
theorem check_device_id_spec (d : Device) (t : ℚ)
    (h7E : d.regs REG_MANUFACTURER_ID < 65536) (h7F : d.regs REG_DEVICE_ID < 65536) :
    (check_device_id d t).2 = true ↔
      (d.readFails REG_MANUFACTURER_ID = false ∧ d.readFails REG_DEVICE_ID = false ∧
       d.regs REG_MANUFACTURER_ID = MANUFACTURER_ID ∧
       d.regs REG_DEVICE_ID = DEVICE_ID) := by
  have hr1 : ∀ d' : Device, regRead d' t REG_MANUFACTURER_ID = d'.regs REG_MANUFACTURER_ID :=
    fun d' => regRead_not_config t (by decide)
  have hr2 : ∀ d' : Device, regRead d' t REG_DEVICE_ID = d'.regs REG_DEVICE_ID :=
    fun d' => regRead_not_config t (by decide)
  unfold check_device_id
  by_cases hf1 : d.readFails REG_MANUFACTURER_ID = true
  · unfold read_register
    simp [hf1]
  · have hf1' : d.readFails REG_MANUFACTURER_ID = false := by
      simpa using hf1
    rw [read_register_ok d t REG_MANUFACTURER_ID hf1' (by rw [hr1]; exact h7E)]
    dsimp only
    by_cases hf2 : d.readFails REG_DEVICE_ID = true
    · unfold read_register
      simp [hf1', hf2]
    · have hf2' : d.readFails REG_DEVICE_ID = false := by
        simpa using hf2
      rw [read_register_ok { d with ptr := REG_MANUFACTURER_ID } t REG_DEVICE_ID hf2'
        (by rw [hr2]; exact h7F)]
      dsimp only
      simp [hr1, hr2, hf1', hf2', Bool.and_eq_true, beq_iff_eq]

/-- Witness for C6 on the concrete device with correct IDs. -/
theorem check_device_id_spec_witness :
    (devID.regs REG_MANUFACTURER_ID < 65536 ∧ devID.regs REG_DEVICE_ID < 65536) ∧
    (check_device_id devID 0).2 = true := by
  refine ⟨⟨?_, ?_⟩, ?_⟩
  · norm_num [devID, REG_MANUFACTURER_ID, MANUFACTURER_ID]
  · norm_num [devID, REG_MANUFACTURER_ID, REG_DEVICE_ID, DEVICE_ID]
  · exact (check_device_id_spec devID 0
      (by norm_num [devID, REG_MANUFACTURER_ID, MANUFACTURER_ID])
      (by norm_num [devID, REG_MANUFACTURER_ID, REG_DEVICE_ID, DEVICE_ID])).mpr
      ⟨rfl, rfl, by norm_num [devID], by norm_num [devID, REG_MANUFACTURER_ID, REG_DEVICE_ID]⟩

/-- Claim C7: `configure` composes, without reading any prior register
state, exactly the word with the auto-range nibble 0xC in bits 15-12 when
`range_auto` (else 0), the conversion-time bit set iff the conversion time
is the 800 ms constant, the mode in bits 10-9, and every other bit zero, and
writes that word (and nothing depending on the old configuration) through
the register-write primitive. -/
theorem configure_word_layout (mode conversion_time : Nat) (range_auto : Bool)
    (hm : mode ≤ 2) :
    config_word mode conversion_time range_auto >>> 12 =
      (if range_auto then 0xC else 0) ∧
    (config_word mode conversion_time range_auto >>> 11) &&& 1 =
      (if conversion_time = CONVERSION_800MS then 1 else 0) ∧
    (config_word mode conversion_time range_auto >>> 9) &&& 3 = mode ∧
    config_word mode conversion_time range_auto &&& 0x01FF = 0 ∧
    ∀ (d : Device) (t : ℚ),
      configure d t mode conversion_time range_auto =
        write_register d t REG_CONFIG (config_word mode conversion_time range_auto) := by
  refine ⟨?_, ?_, ?_, ?_, fun d t => rfl⟩ <;>
    · by_cases hct : conversion_time = CONVERSION_800MS <;>
        cases range_auto <;> interval_cases mode <;>
        simp [config_word, hct] <;> decide

/-- Witness for C7 at `configure(MODE_CONTINUOUS, CONVERSION_100MS,
range_auto := false)`. -/
theorem configure_word_layout_witness :
    MODE_CONTINUOUS ≤ 2 ∧
    (config_word MODE_CONTINUOUS CONVERSION_100MS false >>> 12 =
        (if false then 0xC else 0) ∧
      (config_word MODE_CONTINUOUS CONVERSION_100MS false >>> 11) &&& 1 =
        (if CONVERSION_100MS = CONVERSION_800MS then 1 else 0) ∧
      (config_word MODE_CONTINUOUS CONVERSION_100MS false >>> 9) &&& 3 =
        MODE_CONTINUOUS ∧
      config_word MODE_CONTINUOUS CONVERSION_100MS false &&& 0x01FF = 0 ∧
      ∀ (d : Device) (t : ℚ),
        configure d t MODE_CONTINUOUS CONVERSION_100MS false =
          write_register d t REG_CONFIG
            (config_word MODE_CONTINUOUS CONVERSION_100MS false)) :=
  ⟨by decide, configure_word_layout MODE_CONTINUOUS CONVERSION_100MS false (by decide)⟩

/-- Claim C8: construction signals the setup error exactly when identity
verification returns false (so the caller never obtains a handle), and when
verification succeeds it proceeds to write the default continuous/800 ms
configuration before returning. -/
theorem init_spec (d : Device) (t : ℚ) :
    (init d t = .error DriverError.setup ↔ (check_device_id d t).2 = false) ∧
    ((check_device_id d t).2 = true →
      init d t = configure (check_device_id d t).1 t MODE_CONTINUOUS CONVERSION_800MS true) := by
  rcases hcd : check_device_id d t with ⟨d1, b⟩
  unfold init
  rw [hcd]
  cases b
  · simp
  · refine ⟨⟨fun h => absurd h (write_register_ne_setup d1 t _ _), fun h => ?_⟩, fun _ => rfl⟩
    simp at h

/-- Witness for C8 on the concrete device with correct IDs. -/
theorem init_spec_witness :
    (check_device_id devID 0).2 = true ∧
    init devID 0 =
      configure (check_device_id devID 0).1 0 MODE_CONTINUOUS CONVERSION_800MS true := by
  have hid : (check_device_id devID 0).2 = true := by decide
  exact ⟨hid, (init_spec devID 0).2 hid⟩

/-! ### The single-shot polling loop -/

lemma waitConversion_timeout : ∀ (m : Nat) (d : Device) (start : ℚ) (n : Nat),
    d.readFails REG_CONFIG = false →
    102 - n ≤ m → n ≤ 101 →
    (∀ k, n ≤ k → k ≤ 101 → d.crfAt (start + k / 100) = false) →
    waitConversion d start n = .error DriverError.timeout
  | 0, d, start, n, hf, hm, hn, hcrf => by omega
  | m + 1, d, start, n, hf, hm, hn, hcrf => by
    rw [waitConversion, is_conversion_ready_ok d _ hf]
    dsimp only
    rw [hcrf n le_rfl hn]
    simp only [Bool.false_eq_true, if_false]
    by_cases hg : (start + (n : ℚ) / 100) - start > 1
    · rw [dif_pos hg]
    · rw [dif_neg hg]
      have hn100 : (n : ℚ) / 100 ≤ 1 := by
        simpa [add_sub_cancel_left] using hg
      have hn100' : n ≤ 100 := by
        rw [div_le_one (by norm_num : (0:ℚ) < 100)] at hn100
        exact_mod_cast hn100
      exact waitConversion_timeout m _ start (n + 1) hf (by omega) (by omega)
        fun k hk hk2 => hcrf k (by omega) hk2

lemma waitConversion_ready : ∀ (m : Nat) (d : Device) (start : ℚ) (n k : Nat),
    d.readFails REG_CONFIG = false →
    n ≤ k → k - n ≤ m → k ≤ 101 →
    d.crfAt (start + k / 100) = true →
    (∀ j, n ≤ j → j < k → d.crfAt (start + j / 100) = false) →
    waitConversion d start n = .ok ({ d with ptr := REG_CONFIG }, k)
  | m, d, start, n, k, hf, hnk, hm, hk, hready, hmin => by
    rw [waitConversion, is_conversion_ready_ok d _ hf]
    dsimp only
    rcases Nat.eq_or_lt_of_le hnk with rfl | hlt
    · rw [hready]
      simp
    · rw [hmin n le_rfl hlt]
      simp only [Bool.false_eq_true, if_false]
      have hg : ¬ ((start + (n : ℚ) / 100) - start > 1) := by
        have hn100 : n ≤ 100 := by omega
        simp only [add_sub_cancel_left, not_lt]
        rw [div_le_one (by norm_num : (0:ℚ) < 100)]
        exact_mod_cast hn100
      rw [dif_neg hg]
      cases m with
      | zero => omega
      | succ mm =>
        exact waitConversion_ready mm _ start (n + 1) k hf hlt (by omega) hk hready
          fun j hj hj2 => hmin j (by omega) hj2

lemma single_shot_rest_timeout (d1 : Device) (t0 : ℚ)
    (hf : d1.readFails REG_CONFIG = false)
    (hnever : ∀ k : Nat, k ≤ 101 → d1.crfAt (t0 + (k : ℚ) / 100) = false) :
    single_shot_rest t0 d1 = .error DriverError.timeout := by
  unfold single_shot_rest
  rw [waitConversion_timeout 102 d1 t0 0 hf (by omega) (by omega)
    fun k _ hk2 => hnever k hk2]

lemma single_shot_rest_ready (d1 : Device) (t0 : ℚ) (k : Nat)
    (hf : d1.readFails REG_CONFIG = false) (hk : k ≤ 101)
    (hready : d1.crfAt (t0 + (k : ℚ) / 100) = true)
    (hmin : ∀ j : Nat, j < k → d1.crfAt (t0 + (j : ℚ) / 100) = false) :
    single_shot_rest t0 d1 = read_lux { d1 with ptr := REG_CONFIG } (t0 + (k : ℚ) / 100) := by
  unfold single_shot_rest
  rw [waitConversion_ready 102 d1 t0 0 k hf (Nat.zero_le k) (by omega) hk hready
    fun j _ hj2 => hmin j hj2]

/-- Claim C5: `single_shot` first performs the single-shot configuration
write, then polls `is_conversion_ready` with a 10 ms sleep between polls
(polls happen at times `t0 + k / 100`); if the conversion-ready flag stays
low at every poll inside the fixed 1-second budget it raises the timeout
error (a different error from the I/O error), and otherwise — the flag first
going high at poll `k` within the budget — it returns the value of
`read_lux` on the configured device. -/
theorem single_shot_spec (d : Device) (t0 : ℚ)
    (hrf : ∀ r, d.readFails r = false) (hwf : ∀ r, d.writeFails r = false)
    (hres : d.regs REG_RESULT < 65536) :
    ((∀ k : Nat, k ≤ 101 → d.crfAt (t0 + (k : ℚ) / 100) = false) →
      single_shot d t0 = .error DriverError.timeout ∧
      DriverError.timeout ≠ DriverError.io) ∧
    (∀ k : Nat, k ≤ 101 → d.crfAt (t0 + (k : ℚ) / 100) = true →
      (∀ j : Nat, j < k → d.crfAt (t0 + (j : ℚ) / 100) = false) →
      ∃ d1, configure d t0 MODE_SINGLE_SHOT CONVERSION_800MS true = .ok d1 ∧
        single_shot d t0 = read_lux d1 (t0 + (k : ℚ) / 100) ∧
        single_shot d t0 = .ok ({ d1 with ptr := REG_RESULT },
          decode_lux (d.regs REG_RESULT / 4096) ((d.regs REG_RESULT % 4096 : ℕ) : ℤ))) := by
  obtain ⟨d1, hw1, hfd1, hwd1, hcd1, hrd1, hp1⟩ :
      ∃ d1, configure d t0 MODE_SINGLE_SHOT CONVERSION_800MS true = .ok d1 ∧
        d1.readFails = d.readFails ∧ d1.writeFails = d.writeFails ∧
        d1.crfAt = d.crfAt ∧ d1.regs REG_RESULT = d.regs REG_RESULT ∧
        d1.ptr = REG_CONFIG :=
    ⟨_, write_register_ok d t0 REG_CONFIG _ (hrf d.ptr) (hwf REG_CONFIG),
      rfl, rfl, rfl, rfl, rfl⟩
  have hptr : ({ d1 with ptr := REG_CONFIG } : Device) = d1 := by
    cases d1
    simp only at hp1
    simp [hp1]
  have hss : single_shot d t0 = single_shot_rest t0 d1 := by
    unfold single_shot
    rw [hw1]
  constructor
  · intro hnever
    refine ⟨?_, by decide⟩
    rw [hss]
    apply single_shot_rest_timeout d1 t0
    · rw [hfd1]
      exact hrf _
    · intro k hk
      rw [hcd1]
      exact hnever k hk
  · intro k hk hready hmin
    have hrest : single_shot_rest t0 d1 = read_lux d1 (t0 + k / 100) := by
      rw [single_shot_rest_ready d1 t0 k (by rw [hfd1]; exact hrf _) hk
        (by rw [hcd1]; exact hready) (fun j hj => by rw [hcd1]; exact hmin j hj), hptr]
    refine ⟨d1, hw1, ?_, ?_⟩
    · rw [hss]
      exact hrest
    · rw [hss, hrest, read_lux_ok d1 _ (by rw [hfd1]; exact hrf _) (by rw [hrd1]; exact hres),
        hrd1]

/-- Witness for C5 on the concrete device `devID`, whose conversion-ready
flag is never set: the poll loop times out. -/
theorem single_shot_spec_witness :
    ((∀ r, devID.readFails r = false) ∧ (∀ r, devID.writeFails r = false) ∧
      devID.regs REG_RESULT < 65536 ∧
      (∀ k : Nat, k ≤ 101 → devID.crfAt (0 + (k : ℚ) / 100) = false)) ∧
    single_shot devID 0 = .error DriverError.timeout ∧
    DriverError.timeout ≠ DriverError.io := by
  have h := single_shot_spec devID 0 (fun r => rfl) (fun r => rfl) (by decide)
  exact ⟨⟨fun r => rfl, fun r => rfl, by decide, fun k hk => rfl⟩,
    h.1 fun k hk => rfl⟩

/-- Claim C10: `single_shot` invokes the configuration path with its default
arguments, so the word it hands to the register-write primitive is the fixed
literal 0xCA00 — conversion-time bit set (800 ms) and auto-range nibble 0xC —
independent of the device state, discarding any 100 ms conversion time or
manual range a caller had previously configured. -/
theorem single_shot_uses_default_configure (d : Device) (t0 : ℚ) :
    single_shot d t0 =
      (match configure d t0 MODE_SINGLE_SHOT CONVERSION_800MS true with
        | .error e => .error e
        | .ok d1 => single_shot_rest t0 d1) ∧
    single_shot d t0 =
      (match write_register d t0 REG_CONFIG 0xCA00 with
        | .error e => .error e
        | .ok d1 => single_shot_rest t0 d1) ∧
    config_word MODE_SINGLE_SHOT CONVERSION_800MS true = 0xCA00 ∧
    config_word MODE_SINGLE_SHOT CONVERSION_800MS true &&& CONFIG_CT = CONFIG_CT ∧
    config_word MODE_SINGLE_SHOT CONVERSION_800MS true >>> 12 = 0xC :=
  ⟨rfl, rfl, by decide, by decide, by decide⟩

end OPT3001
